import Mathlib

/-!
# Verification of the gameplay simulation core

Shallow embedding of the gameplay core of the repository (entity registry,
message bus, boat state machine, shield handling, collision avoidance) with
theorems settling the specification claims.

Machine floats are modelled by exact rationals: all the embedded operations
use only field arithmetic and order comparisons, so the control flow of the
embedded code coincides with the source on the concrete inputs used here.
Square roots (vector lengths) are supplied as explicit arguments constrained
by a squaring hypothesis instead of being computed.
-/

/-! ## Entity identifiers (src/Scene/EntityTypes.h) -/

/-- EntityID is an unsigned integer (uint32_t in the source, modelled as Nat:
the registry only ever increments the counter, so no wraparound occurs in any
scenario considered here). -/
abbrev EntityID := Nat

/-- Special ID indicating a null ID (error return). -/
def NO_ID : EntityID := 0

/-- Special ID of the system itself. -/
def SYSTEM_ID : EntityID := 1

/-- The first ID handed out by the registry. -/
def FIRST_ENTITY_ID : EntityID := 2

/-! ## Entity registry (src/Scene/EntityManager.h / .cpp)

`std::map<std::string, std::unique_ptr<EntityTemplate>> mEntityTemplates` is
modelled as an association list from template type name to the template's
`mEntities` vector (the only template field the claims touch).
`std::map<EntityID, std::unique_ptr<Entity>> mEntities` is modelled as an
association list from entity ID to the name of the entity's template (the
entity payload relevant to destruction bookkeeping).  Both maps are kept in
key order: entity IDs are allocated from a strictly increasing counter, so
appending a new entry preserves the `std::map` iteration order. -/
structure EntityManager where
  mEntityTemplates : List (String × List EntityID)
  mEntities : List (EntityID × String)
  mNextID : EntityID
deriving DecidableEq

namespace EntityManager

/-- `mEntityTemplates.contains(type)` -/
def containsTemplate (em : EntityManager) (type : String) : Bool :=
  (em.mEntityTemplates.lookup type).isSome

/-- The `mEntities` vector of the template called `type` (empty when the
template does not exist). -/
def templateEntities (em : EntityManager) (type : String) : List EntityID :=
  (em.mEntityTemplates.lookup type).getD []

/-- `GetTemplate(type)`: null (`none`) when no template of that name exists. -/
def getTemplate (em : EntityManager) (type : String) : Option (List EntityID) :=
  em.mEntityTemplates.lookup type

/-- `GetEntity(id)`: null (`none`) when no entity with this ID exists;
otherwise the entity, represented by its template's name. -/
def getEntity (em : EntityManager) (id : EntityID) : Option String :=
  em.mEntities.lookup id

/-- `mEntities.contains(id)` -/
def isLive (em : EntityManager) (id : EntityID) : Bool :=
  (em.mEntities.lookup id).isSome

/-- Replace the `mEntities` vector of template `type` by `f` applied to it. -/
def mapTemplateEntities (em : EntityManager) (type : String)
    (f : List EntityID → List EntityID) : EntityManager :=
  { em with mEntityTemplates :=
      em.mEntityTemplates.map (fun te => if te.1 = type then (te.1, f te.2) else te) }

/-- `EntityManager::DestroyEntity` (EntityManager.cpp lines 40-52): if the ID
is absent return false; otherwise remove the ID from its template's entity
vector (`std::remove` + `erase`, i.e. a filter) and erase it from the global
entity map. -/
def destroyEntity (em : EntityManager) (id : EntityID) : EntityManager × Bool :=
  match em.mEntities.lookup id with
  | none => (em, false)
  | some tname =>
      let em1 := em.mapTemplateEntities tname (fun es => es.filter (fun e => e ≠ id))
      ({ em1 with mEntities := em1.mEntities.filter (fun e => e.1 ≠ id) }, true)

/-- One iteration step of the `while` loop of `DestroyEntityTemplate`
(EntityManager.cpp lines 28-32): destroy the entity whose ID is at the back
of the template's entity vector, then `pop_back` the vector.  `pop_back` on
an empty vector is undefined behaviour in C++; it is modelled as a no-op
(`List.dropLast [] = []`), the weakest consistent reading. -/
def destroyTemplateStep (em : EntityManager) (type : String) : EntityManager :=
  match em.templateEntities type with
  | [] => em
  | e :: es =>
      let em1 := (em.destroyEntity ((e :: es).getLast (List.cons_ne_nil e es))).1
      em1.mapTemplateEntities type List.dropLast

/-- The `while (entityTemplate->mEntities.size() > 0)` loop of
`DestroyEntityTemplate`, run with explicit fuel.  Each iteration strictly
shrinks the template's entity vector (the `pop_back` alone guarantees this),
so fuel equal to the initial vector length always suffices for the loop to
reach its exit condition. -/
def destroyTemplateLoop : Nat → EntityManager → String → EntityManager
  | 0, em, _ => em
  | fuel + 1, em, type =>
      if em.templateEntities type = [] then em
      else destroyTemplateLoop fuel (em.destroyTemplateStep type) type

/-- `EntityManager::DestroyEntityTemplate` (EntityManager.cpp lines 21-37):
returns false if the template is absent; otherwise destroys the entities in
the template's vector via the loop above, erases the template, returns true. -/
def destroyEntityTemplate (em : EntityManager) (type : String) :
    EntityManager × Bool :=
  if em.containsTemplate type then
    let em1 := destroyTemplateLoop (em.templateEntities type).length em type
    ({ em1 with mEntityTemplates :=
        em1.mEntityTemplates.filter (fun te => te.1 ≠ type) }, true)
  else (em, false)

end EntityManager

/-! ### Scenario D input: template owning entities 7, 9, 12 -/

/-- A registry holding the template of Scenario D with live entities
7, 9 and 12 (pushed back in creation order). -/
def blueTankerEM : EntityManager :=
  { mEntityTemplates := [("Blue Tanker", [7, 9, 12])]
    mEntities := [(7, "Blue Tanker"), (9, "Blue Tanker"), (12, "Blue Tanker")]
    mNextID := 13 }

/-- C1: Destroying a template does NOT destroy all of its entities.  The
`while` loop of `DestroyEntityTemplate` removes the back ID twice per
iteration: once inside `DestroyEntity` (which since the `*UPDATE*` change
already erases the ID from the template's vector) and once more via
`pop_back`, which discards the next ID without destroying its entity.  On the
Scenario D registry (template owning entities 7, 9, 12) the call destroys 12
and 7 but leaves entity 9 alive, so `GetEntity(9)` is not null and the global
entity count drops by 2, not 3 (the second iteration additionally reaches
`pop_back` on an empty vector, undefined behaviour, modelled as a no-op).
The template itself is erased, so `GetTemplate` does return null. -/
theorem destroyTemplate_leaves_entity_nine_alive :
    (blueTankerEM.destroyEntityTemplate ("Blue Tanker")).2 = true ∧
    (blueTankerEM.destroyEntityTemplate ("Blue Tanker")).1.getEntity 7 = none ∧
    (blueTankerEM.destroyEntityTemplate ("Blue Tanker")).1.getEntity 12 = none ∧
    (blueTankerEM.destroyEntityTemplate ("Blue Tanker")).1.getEntity 9 =
      some ("Blue Tanker") ∧
    (blueTankerEM.destroyEntityTemplate ("Blue Tanker")).1.getTemplate
      ("Blue Tanker") = none ∧
    blueTankerEM.mEntities.length = 3 ∧
    (blueTankerEM.destroyEntityTemplate ("Blue Tanker")).1.mEntities.length = 1 := by
  decide

/-! ## UpdateAll (src/Scene/EntityManager.cpp lines 77-89)

`UpdateAll` walks the entity map with an iterator, advances the iterator
*before* calling the entity's update, and calls `DestroyEntity` immediately
when the update returns false.  The per-entity update is abstracted as a
function `upd : EntityID → EntityManager → Bool` of the registry state at the
moment the entity is updated (true = keep, false = destroy me); this models a
pass in which updates observe the registry but the only registry mutation is
the loop's own destruction of the just-updated entity, so iterating the
snapshot of keys coincides with the C++ iterator walk. -/

namespace EntityManager

/-- The final registry state after the `UpdateAll` loop over the given IDs. -/
def updateAllFrom (upd : EntityID → EntityManager → Bool) :
    List EntityID → EntityManager → EntityManager
  | [], em => em
  | id :: rest, em =>
      updateAllFrom upd rest (if upd id em then em else (em.destroyEntity id).1)

/-- `EntityManager::UpdateAll`: iterate over the live entities in map order. -/
def updateAll (em : EntityManager) (upd : EntityID → EntityManager → Bool) :
    EntityManager :=
  updateAllFrom upd (em.mEntities.map Prod.fst) em

/-- The trace of the `UpdateAll` loop: for each updated entity, the registry
state passed to its update call (what that entity observes). -/
def updateTrace (upd : EntityID → EntityManager → Bool) :
    List EntityID → EntityManager → List (EntityID × EntityManager)
  | [], _ => []
  | id :: rest, em =>
      (id, em) :: updateTrace upd rest (if upd id em then em else (em.destroyEntity id).1)

end EntityManager

/-! ### Basic facts about destruction -/

/-- Filtering away all pairs whose key is `id` makes lookup of `id` fail. -/
theorem lookup_filter_ne_self (l : List (EntityID × String)) (id : EntityID) :
    (l.filter (fun e => e.1 ≠ id)).lookup id = none := by
  rw [List.lookup_eq_none_iff]
  intro p hp
  have h2 : p.1 ≠ id := by simpa using (List.mem_filter.mp hp).2
  simpa [bne_iff_ne] using Ne.symm h2

/-- Lookup failure is preserved by filtering. -/
theorem lookup_filter_none (l : List (EntityID × String))
    (p : EntityID × String → Bool) (id : EntityID) (h : l.lookup id = none) :
    (l.filter p).lookup id = none := by
  rw [List.lookup_eq_none_iff] at h ⊢
  intro q hq
  exact h q (List.mem_filter.mp hq).1

/-- `DestroyEntity(id)` leaves no entity with key `id` in the registry. -/
theorem isLive_destroyEntity_self (em : EntityManager) (id : EntityID) :
    (em.destroyEntity id).1.isLive id = false := by
  rw [EntityManager.destroyEntity]
  cases h : em.mEntities.lookup id with
  | none => simp [EntityManager.isLive, h]
  | some tname =>
      simp [EntityManager.isLive, EntityManager.mapTemplateEntities,
        lookup_filter_ne_self]
      intro a b _ hne heq
      exact hne heq.symm

/-- A dead entity stays dead across any `DestroyEntity` call. -/
theorem isLive_destroyEntity_mono (em : EntityManager) (i j : EntityID)
    (h : em.isLive i = false) : (em.destroyEntity j).1.isLive i = false := by
  have h0 : em.mEntities.lookup i = none := by
    rw [EntityManager.isLive] at h
    cases hi : em.mEntities.lookup i with
    | none => rfl
    | some v => rw [hi] at h; simp at h
  rw [EntityManager.destroyEntity]
  cases hj : em.mEntities.lookup j with
  | none => simpa [EntityManager.isLive] using h
  | some tname =>
      simp [EntityManager.isLive, EntityManager.mapTemplateEntities,
        lookup_filter_none _ _ _ h0]

/-- An entity that is dead when the `UpdateAll` loop reaches some point stays
dead in every state observed later in the pass. -/
theorem updateTrace_dead_stays_dead (upd : EntityID → EntityManager → Bool) :
    ∀ (ids : List EntityID) (em : EntityManager) (i : EntityID),
      em.isLive i = false →
      ∀ p ∈ EntityManager.updateTrace upd ids em, p.2.isLive i = false := by
  intro ids
  induction ids with
  | nil => intro em i _ p hp; simp [EntityManager.updateTrace] at hp
  | cons a rest ih =>
      intro em i hdead p hp
      rw [EntityManager.updateTrace] at hp
      rcases List.mem_cons.mp hp with rfl | htail
      · exact hdead
      · by_cases hu : upd a em
        · exact ih _ i (by simpa [hu] using hdead) p (by simpa [hu] using htail)
        · refine ih _ i ?_ p (by simpa [hu] using htail)
          exact isLive_destroyEntity_mono em i a hdead

/-- C2 (amended): in a single `UpdateAll` pass, an entity whose update
reports "destroy me" is removed from the registry immediately, before the
rest of the pass: every entity updated later in the same pass observes it as
no longer live.  (Iteration stays safe because the loop advances its iterator
before destroying.)  Here `updateTrace` lists, in pass order, each updated
entity together with the registry state its update call observes. -/
theorem updateAll_removes_immediately
    (upd : EntityID → EntityManager → Bool) (ids : List EntityID)
    (em : EntityManager) (i j : EntityID) (si sj : EntityManager)
    (hsub : List.Sublist [(i, si), (j, sj)] (EntityManager.updateTrace upd ids em))
    (hdestroy : upd i si = false) : sj.isLive i = false := by
  induction ids generalizing em with
  | nil =>
      rw [EntityManager.updateTrace] at hsub
      exact absurd (List.sublist_nil.mp hsub) (by simp)
  | cons a rest ih =>
      rw [EntityManager.updateTrace] at hsub
      cases hsub with
      | cons _ hs => exact ih _ hs
      | cons₂ _ hs =>
          refine updateTrace_dead_stays_dead upd rest _ _ ?_ _
            (hs.subset (List.mem_singleton.mpr rfl))
          simp only [hdestroy, if_false]
          exact isLive_destroyEntity_self _ _

/-! ### C2 counterexample input: two entities, the first reports destroy -/

/-- Registry with two live entities 2 and 3 of the same template. -/
def c2EM : EntityManager :=
  { mEntityTemplates := [("T", [2, 3])]
    mEntities := [(2, "T"), (3, "T")]
    mNextID := 4 }

/-- Per-tick updates for the counterexample: entity 2 reports "destroy me";
entity 3 survives exactly when it observes entity 2 as live. -/
def c2Upd : EntityID → EntityManager → Bool :=
  fun id em => if id = 2 then false else em.isLive 2

/-- C2 counterexample: the claim says an entity whose update reports
"destroy me" is removed only after the full pass, so every later entity still
observes it as live.  In the code, entity 2 is destroyed immediately: entity
3's update call in the very same pass already observes entity 2 as dead (and
consequently entity 3 is destroyed as well, which could not happen if
destruction were deferred). -/
theorem updateAll_no_deferred_destruction :
    EntityManager.updateTrace c2Upd [2, 3] c2EM =
      [(2, c2EM), (3, (c2EM.destroyEntity 2).1)] ∧
    (c2EM.destroyEntity 2).1.isLive 2 = false ∧
    c2Upd 3 ((c2EM.destroyEntity 2).1) = false ∧
    (EntityManager.updateAll c2EM c2Upd).isLive 3 = false := by
  decide

/-- Witness for `updateAll_removes_immediately` on the concrete two-entity
pass: its sublist and update hypotheses hold, and the theorem yields that
entity 3 observes entity 2 as dead. -/
theorem updateAll_removes_immediately_witness :
    List.Sublist [(2, c2EM), (3, (c2EM.destroyEntity 2).1)]
      (EntityManager.updateTrace c2Upd [2, 3] c2EM) ∧
    c2Upd 2 c2EM = false ∧
    ((c2EM.destroyEntity 2).1).isLive 2 = false :=
  ⟨by decide, by decide,
    updateAll_removes_immediately c2Upd [2, 3] c2EM 2 3 c2EM
      ((c2EM.destroyEntity 2).1) (by decide) (by decide)⟩

/-! ## CreateEntity and ID allocation (src/Scene/EntityManager.h lines 84-117)

`CreateEntity` first checks the template map (an unknown template returns
NO_ID without touching the counter), then allocates `newID = mNextID++`
*before* attempting construction.  The constructor either succeeds or throws
`std::runtime_error`; this outcome is a parameter `ctorOK` of the model.  On
a throw, NO_ID is returned and neither the entity map nor the template's
vector has been touched, but the counter increment is not rolled back. -/

namespace EntityManager

/-- `EntityManager::CreateEntity`. -/
def createEntity (em : EntityManager) (templateType : String) (ctorOK : Bool) :
    EntityManager × EntityID :=
  if em.containsTemplate templateType then
    let newID := em.mNextID
    let em1 := { em with mNextID := em.mNextID + 1 }
    if ctorOK then
      ({ em1 with
          mEntities := em1.mEntities ++ [(newID, templateType)]
          mEntityTemplates := (em1.mapTemplateEntities templateType
            (fun es => es ++ [newID])).mEntityTemplates }, newID)
    else (em1, NO_ID)
  else (em, NO_ID)

/-- The IDs of the live entities, in map order. -/
def liveIDs (em : EntityManager) : List EntityID :=
  em.mEntities.map Prod.fst

end EntityManager

/-- An externally observable registry operation: a create attempt on a named
template whose constructor succeeds or throws, or a destroy of an ID. -/
inductive EMOp
  | create (templateType : String) (ctorOK : Bool)
  | destroy (id : EntityID)
deriving DecidableEq

/-- Run one operation. -/
def stepOp (em : EntityManager) : EMOp → EntityManager
  | .create t ok => (em.createEntity t ok).1
  | .destroy id => (em.destroyEntity id).1

/-- Run a sequence of operations. -/
def runOps (em : EntityManager) (ops : List EMOp) : EntityManager :=
  ops.foldl stepOp em

/-- The IDs actually assigned to entities by the successful creates of an
operation sequence, in order (failed creates return NO_ID and assign none). -/
def assignedIDs : EntityManager → List EMOp → List EntityID
  | _, [] => []
  | em, .create t ok :: rest =>
      let r := em.createEntity t ok
      (if r.2 ≠ NO_ID then [r.2] else []) ++ assignedIDs r.1 rest
  | em, .destroy id :: rest => assignedIDs (em.destroyEntity id).1 rest

/-- A fresh registry holding templates named by `ts` and no entities, with
the counter at FIRST_ENTITY_ID, as after scene setup before any creates. -/
def mkInit (ts : List String) : EntityManager :=
  { mEntityTemplates := ts.map (fun t => (t, []))
    mEntities := []
    mNextID := FIRST_ENTITY_ID }

/-! ### Registry invariant: live IDs below the counter and duplicate-free -/

/-- Every live ID is below the allocation counter, and no two live entities
share an ID. -/
def EMInv (em : EntityManager) : Prop :=
  (∀ id ∈ em.liveIDs, id < em.mNextID) ∧ em.liveIDs.Nodup

theorem liveIDs_destroyEntity_sublist (em : EntityManager) (id : EntityID) :
    List.Sublist ((em.destroyEntity id).1.liveIDs) em.liveIDs := by
  rw [EntityManager.destroyEntity]
  cases h : em.mEntities.lookup id with
  | none => exact List.Sublist.refl _
  | some tname =>
      simp only [EntityManager.liveIDs, EntityManager.mapTemplateEntities]
      exact (List.filter_sublist _).map _

theorem emInv_destroyEntity (em : EntityManager) (id : EntityID)
    (h : EMInv em) : EMInv (em.destroyEntity id).1 := by
  obtain ⟨hlt, hnd⟩ := h
  have hsub := liveIDs_destroyEntity_sublist em id
  exact ⟨fun i hi => by
      have := EntityManager.destroyEntity em id
      exact (by
        have hn : (em.destroyEntity id).1.mNextID = em.mNextID := by
          rw [EntityManager.destroyEntity]
          cases hl : em.mEntities.lookup id <;> rfl
        rw [hn]
        exact hlt i (hsub.subset hi)),
    hnd.sublist hsub⟩

theorem mNextID_destroyEntity (em : EntityManager) (id : EntityID) :
    (em.destroyEntity id).1.mNextID = em.mNextID := by
  rw [EntityManager.destroyEntity]
  cases hl : em.mEntities.lookup id <;> rfl

theorem mNextID_createEntity_ge (em : EntityManager) (t : String) (ok : Bool) :
    em.mNextID ≤ (em.createEntity t ok).1.mNextID := by
  rw [EntityManager.createEntity]
  by_cases hc : em.containsTemplate t <;> by_cases hk : ok <;>
    simp [hc, hk]

theorem createEntity_cases (em : EntityManager) (t : String) (ok : Bool) :
    ((em.createEntity t ok).1.liveIDs = em.liveIDs ∧
      (em.createEntity t ok).1.mNextID = em.mNextID ∧
      (em.createEntity t ok).2 = NO_ID) ∨
    ((em.createEntity t ok).1.liveIDs = em.liveIDs ∧
      (em.createEntity t ok).1.mNextID = em.mNextID + 1 ∧
      (em.createEntity t ok).2 = NO_ID) ∨
    ((em.createEntity t ok).1.liveIDs = em.liveIDs ++ [em.mNextID] ∧
      (em.createEntity t ok).1.mNextID = em.mNextID + 1 ∧
      (em.createEntity t ok).2 = em.mNextID) := by
  rw [EntityManager.createEntity]
  by_cases hc : em.containsTemplate t <;> by_cases hk : ok <;>
    simp [hc, hk, EntityManager.liveIDs, EntityManager.mapTemplateEntities]

theorem emInv_createEntity (em : EntityManager) (t : String) (ok : Bool)
    (h : EMInv em) : EMInv (em.createEntity t ok).1 := by
  obtain ⟨hlt, hnd⟩ := h
  rcases createEntity_cases em t ok with ⟨h1, h2, _⟩ | ⟨h1, h2, _⟩ | ⟨h1, h2, _⟩
  · exact ⟨fun i hi => by rw [h2]; exact hlt i (h1 ▸ hi), h1 ▸ hnd⟩
  · exact ⟨fun i hi => by rw [h2]; exact Nat.lt_succ_of_lt (hlt i (h1 ▸ hi)),
      h1 ▸ hnd⟩
  · constructor
    · intro i hi
      rw [h1] at hi
      rw [h2]
      rcases List.mem_append.mp hi with hm | hm
      · exact Nat.lt_succ_of_lt (hlt i hm)
      · rw [List.mem_singleton.mp hm]
        exact Nat.lt_succ_self _
    · rw [h1]
      refine hnd.append (List.nodup_singleton _) ?_
      intro i hi hj
      rw [List.mem_singleton.mp hj] at hi
      exact absurd (hlt _ hi) (Nat.lt_irrefl _)

theorem mNextID_stepOp_ge (em : EntityManager) (op : EMOp) :
    em.mNextID ≤ (stepOp em op).mNextID := by
  cases op with
  | create t ok => exact mNextID_createEntity_ge em t ok
  | destroy id => rw [stepOp, mNextID_destroyEntity]

theorem mNextID_runOps_ge (ops : List EMOp) :
    ∀ em : EntityManager, em.mNextID ≤ (runOps em ops).mNextID := by
  induction ops with
  | nil => intro em; exact Nat.le_refl _
  | cons op rest ih =>
      intro em
      exact Nat.le_trans (mNextID_stepOp_ge em op) (ih (stepOp em op))

theorem emInv_stepOp (em : EntityManager) (op : EMOp) (h : EMInv em) :
    EMInv (stepOp em op) := by
  cases op with
  | create t ok => exact emInv_createEntity em t ok h
  | destroy id => exact emInv_destroyEntity em id h

theorem emInv_runOps (ops : List EMOp) :
    ∀ em : EntityManager, EMInv em → EMInv (runOps em ops) := by
  induction ops with
  | nil => intro em h; exact h
  | cons op rest ih => intro em h; exact ih (stepOp em op) (emInv_stepOp em op h)

/-- Every ID assigned during a run of operations is at least the allocation
counter of the starting state. -/
theorem assignedIDs_ge (ops : List EMOp) :
    ∀ (em : EntityManager) (id : EntityID),
      id ∈ assignedIDs em ops → em.mNextID ≤ id := by
  induction ops with
  | nil => intro em id h; simp [assignedIDs] at h
  | cons op rest ih =>
      intro em id h
      cases op with
      | create t ok =>
          rw [assignedIDs] at h
          rcases List.mem_append.mp h with hm | hm
          · rcases createEntity_cases em t ok with ⟨_, _, h3⟩ | ⟨_, _, h3⟩ |
              ⟨_, _, h3⟩
            · simp [h3] at hm
            · simp [h3] at hm
            · rw [h3] at hm
              by_cases h0 : em.mNextID ≠ NO_ID
              · rw [if_pos h0] at hm
                exact Nat.le_of_eq (List.mem_singleton.mp hm).symm
              · rw [if_neg h0] at hm
                exact absurd hm (List.not_mem_nil id)
          · exact Nat.le_trans (mNextID_createEntity_ge em t ok) (ih _ id hm)
      | destroy i =>
          rw [assignedIDs] at h
          have := ih _ id h
          rwa [mNextID_destroyEntity] at this

/-- The successful creates of a run assign pairwise distinct IDs: an ID is
assigned at most once in the entire run, so an ID whose entity has been
destroyed is never handed out again. -/
theorem assignedIDs_nodup (ops : List EMOp) :
    ∀ em : EntityManager, (assignedIDs em ops).Nodup := by
  induction ops with
  | nil => intro em; simp [assignedIDs]
  | cons op rest ih =>
      intro em
      cases op with
      | create t ok =>
          rw [assignedIDs]
          rcases createEntity_cases em t ok with ⟨_, h2, h3⟩ | ⟨_, h2, h3⟩ |
            ⟨_, h2, h3⟩
          · simpa [h3] using ih _
          · simpa [h3] using ih _
          · rw [h3]
            by_cases h0 : em.mNextID ≠ NO_ID
            · rw [if_pos h0]
              refine List.Nodup.append (List.nodup_singleton _) (ih _) ?_
              intro i hi hmem
              rw [List.mem_singleton.mp hi] at hmem
              have hge := assignedIDs_ge rest _ _ hmem
              rw [h2] at hge
              exact Nat.not_succ_le_self _ hge
            · rw [if_neg h0]
              simpa using ih _
      | destroy i =>
          rw [assignedIDs]
          exact ih _

/-- C7: over every sequence of create / destroy operations starting from a
fresh registry, (a) no two simultaneously live entities share an ID,
(b) each ID is assigned to at most one entity over the whole run (so a
destroyed ID is never revived), and (c) the allocation counter is monotonic
across any run from any state. -/
theorem registry_id_uniqueness :
    (∀ (ts : List String) (ops : List EMOp),
        ((runOps (mkInit ts) ops).liveIDs.Nodup ∧
          (assignedIDs (mkInit ts) ops).Nodup)) ∧
    (∀ (em : EntityManager) (ops : List EMOp),
        em.mNextID ≤ (runOps em ops).mNextID) := by
  constructor
  · intro ts ops
    have hinit : EMInv (mkInit ts) := by
      constructor
      · intro i hi
        simp [mkInit, EntityManager.liveIDs] at hi
      · simp [mkInit, EntityManager.liveIDs]
    exact ⟨(emInv_runOps ops (mkInit ts) hinit).2, assignedIDs_nodup ops _⟩
  · intro em ops
    exact mNextID_runOps_ge ops em

/-- C10: with a known template but a failing entity constructor,
`CreateEntity` returns NO_ID, the entity map and the template map are
untouched (failure is atomic), yet the counter has advanced by one, and the
skipped ID is never assigned by any later sequence of operations. -/
theorem createEntity_ctor_failure_atomic (em : EntityManager) (t : String)
    (hc : em.containsTemplate t = true) :
    (em.createEntity t false).2 = NO_ID ∧
    (em.createEntity t false).1.mEntities = em.mEntities ∧
    (em.createEntity t false).1.mEntityTemplates = em.mEntityTemplates ∧
    (em.createEntity t false).1.mNextID = em.mNextID + 1 ∧
    ∀ ops : List EMOp, em.mNextID ∉ assignedIDs (em.createEntity t false).1 ops := by
  have hstate : em.createEntity t false =
      ({ em with mNextID := em.mNextID + 1 }, NO_ID) := by
    rw [EntityManager.createEntity, if_pos hc, if_neg (by simp)]
  refine ⟨by rw [hstate], by rw [hstate], by rw [hstate], by rw [hstate], ?_⟩
  intro ops hmem
  have hge := assignedIDs_ge ops _ _ hmem
  rw [hstate] at hge
  exact Nat.not_succ_le_self _ hge

/-- Witness for `createEntity_ctor_failure_atomic` on a one-template fresh
registry: the template exists, the failed create leaves the maps untouched,
burns ID 2, and ID 2 is not assigned by a subsequent successful create. -/
theorem createEntity_ctor_failure_atomic_witness :
    (mkInit ["Boat"]).containsTemplate ("Boat") = true ∧
    ((mkInit ["Boat"]).createEntity ("Boat") false).2 = NO_ID ∧
    ((mkInit ["Boat"]).createEntity ("Boat") false).1.mNextID = 3 ∧
    2 ∉ assignedIDs ((mkInit ["Boat"]).createEntity ("Boat") false).1
        [.create ("Boat") true] :=
  ⟨by decide,
    (createEntity_ctor_failure_atomic (mkInit ["Boat"]) ("Boat") (by decide)).1,
    (createEntity_ctor_failure_atomic (mkInit ["Boat"]) ("Boat") (by decide)).2.2.2.1,
    (createEntity_ctor_failure_atomic (mkInit ["Boat"]) ("Boat")
      (by decide)).2.2.2.2 [.create ("Boat") true]⟩

/-! ## Messenger (src/Scene/Messenger.h / .cpp)

Message payloads and the multimap mailbox.  `Vec3` (modelling `Vector3` of src/Math/Vector3.h)
holds rational coordinates, the exact model of the float vector.  The
`ShieldDestroyed` message tag and the help payload are used by Boat.cpp and
Shield.cpp; their declarations are missing from the snapshot's Messenger.h
(the header predates the sources) and are included here as used. -/

structure Vec3 where
  x : ℚ
  y : ℚ
  z : ℚ
deriving DecidableEq

/-- Enum of supported message types (Messenger.h lines 22-38). -/
inductive MessageType
  | Pause | Unpause | TargetEntity | TargetPoint | TargetNone | Die
  | Start | Stop | Hit | Evade | Help | Reload | MineHit | CrateCollected
  | ShieldDestroyed
deriving DecidableEq

/-- Crate kinds (Messenger.h lines 58-63). -/
inductive CrateType
  | Missile | Health | Shield
deriving DecidableEq

/-- `std::variant<std::monostate, TargetEntityData, TargetPointData,
CratePickupData, MissileHitData>` (Messenger.h line 81), plus the help
payload used by Boat.cpp. -/
inductive MessageData
  | monostate
  | targetEntityData (target : EntityID) (range : ℚ)
  | targetPointData (target : Vec3) (range : ℚ)
  | cratePickupData (type : CrateType)
  | missileHitData (launchingBoatID : EntityID)
  | helpMessageData (enemyBoatID : EntityID)
deriving DecidableEq

/-- `struct Message { EntityID from; MessageType type; MessageData data; }`
(`from` is a Lean keyword, renamed `msgFrom`). -/
structure Message where
  msgFrom : EntityID
  type : MessageType
  data : MessageData
deriving DecidableEq

/-- `std::multimap<EntityID, Message> mMessages`, kept in key order. -/
abbrev Mailbox := List (EntityID × Message)

/-- `std::multimap::insert`: the new element goes at the upper bound of its
key, i.e. before the first strictly greater key and after any equal keys. -/
def multimapInsert : Mailbox → EntityID → Message → Mailbox
  | [], toID, m => [(toID, m)]
  | (k, v) :: rest, toID, m =>
      if toID < k then (toID, m) :: (k, v) :: rest
      else (k, v) :: multimapInsert rest toID m

/-- `Messenger::DeliverMessage` (Messenger.cpp lines 19-29): build the
Message and insert it keyed by the recipient. -/
def deliverMessage (mb : Mailbox) (msgFrom toID : EntityID) (type : MessageType)
    (data : MessageData) : Mailbox :=
  multimapInsert mb toID { msgFrom := msgFrom, type := type, data := data }

/-- `Messenger::ReceiveMessage` (Messenger.cpp lines 35-51): find the first
message for the recipient, return it and erase it; `none` models the `false`
return when there are no messages for this UID. -/
def receiveMessage : Mailbox → EntityID → Option (Message × Mailbox)
  | [], _ => none
  | (k, v) :: rest, toID =>
      if k = toID then some (v, rest)
      else
        match receiveMessage rest toID with
        | none => none
        | some (m, rest2) => some (m, (k, v) :: rest2)

/-- Number of pending messages for a recipient. -/
def countFor (mb : Mailbox) (toID : EntityID) : Nat :=
  (mb.filter (fun e => e.1 = toID)).length

/-- The caller-side receive loop ("loop until ReceiveMessage returns
false"), run with explicit fuel; one message is removed per iteration, so
fuel `mb.length` always reaches the empty-mailbox exit. -/
def drainLoop : Nat → Mailbox → EntityID → List Message × Mailbox
  | 0, mb, _ => ([], mb)
  | fuel + 1, mb, toID =>
      match receiveMessage mb toID with
      | none => ([], mb)
      | some (m, mb2) =>
          let r := drainLoop fuel mb2 toID
          (m :: r.1, r.2)

/-- A full receive loop for a recipient. -/
def drain (mb : Mailbox) (toID : EntityID) : List Message × Mailbox :=
  drainLoop mb.length mb toID

theorem receiveMessage_none_iff (toID : EntityID) :
    ∀ mb : Mailbox, receiveMessage mb toID = none ↔ countFor mb toID = 0 := by
  intro mb
  induction mb with
  | nil => simp [receiveMessage, countFor]
  | cons hd rest ih =>
      obtain ⟨k, v⟩ := hd
      rw [receiveMessage]
      by_cases hk : k = toID
      · simp only [hk, if_true, countFor, List.filter_cons]
        simp
      · simp only [hk, if_false, countFor, List.filter_cons]
        rw [countFor] at ih
        cases hr : receiveMessage rest toID with
        | none => simp [hk, ← ih, hr]
        | some p => simp [hk, ← ih, hr]

theorem receiveMessage_some_count (toID : EntityID) :
    ∀ (mb : Mailbox) (m : Message) (mb2 : Mailbox),
      receiveMessage mb toID = some (m, mb2) →
      countFor mb2 toID + 1 = countFor mb toID := by
  intro mb
  induction mb with
  | nil => intro m mb2 h; simp [receiveMessage] at h
  | cons hd rest ih =>
      obtain ⟨k, v⟩ := hd
      intro m mb2 h
      rw [receiveMessage] at h
      by_cases hk : k = toID
      · rw [if_pos hk] at h
        injection h with h
        injection h with h1 h2
        subst h2
        simp [countFor, List.filter_cons, hk]
      · rw [if_neg hk] at h
        cases hr : receiveMessage rest toID with
        | none => rw [hr] at h; exact absurd h (by simp)
        | some p =>
            obtain ⟨m1, rest2⟩ := p
            rw [hr] at h
            injection h with h
            injection h with h1 h2
            subst h1
            subst h2
            have hc := ih _ _ hr
            simpa [countFor, List.filter_cons, hk] using hc

theorem countFor_le_length (mb : Mailbox) (toID : EntityID) :
    countFor mb toID ≤ mb.length :=
  List.length_filter_le _ mb

theorem drainLoop_empties (toID : EntityID) :
    ∀ (fuel : Nat) (mb : Mailbox), countFor mb toID ≤ fuel →
      countFor (drainLoop fuel mb toID).2 toID = 0 := by
  intro fuel
  induction fuel with
  | zero => intro mb h; simpa [drainLoop] using Nat.le_zero.mp h
  | succ n ih =>
      intro mb h
      rw [drainLoop]
      cases hr : receiveMessage mb toID with
      | none => simpa using (receiveMessage_none_iff toID mb).mp hr
      | some p =>
          obtain ⟨m, mb2⟩ := p
          have hc := receiveMessage_some_count toID mb m mb2 hr
          exact ih mb2 (by omega)

theorem drain_empties (mb : Mailbox) (toID : EntityID) :
    countFor (drain mb toID).2 toID = 0 :=
  drainLoop_empties toID mb.length mb (countFor_le_length mb toID)

theorem drain_of_empty (mb : Mailbox) (toID : EntityID)
    (h : countFor mb toID = 0) : drain mb toID = ([], mb) := by
  rw [drain]
  cases mb with
  | nil => rfl
  | cons hd rest =>
      rw [List.length_cons, drainLoop, (receiveMessage_none_iff toID _).mpr h]

/-- Inserting a message for a recipient with an empty mailbox slot and then
receiving for that recipient returns exactly the inserted message and
restores the original mailbox. -/
theorem receive_insert_of_empty (toID : EntityID) (m : Message) :
    ∀ mb : Mailbox, countFor mb toID = 0 →
      receiveMessage (multimapInsert mb toID m) toID = some (m, mb) := by
  intro mb
  induction mb with
  | nil => intro _; simp [multimapInsert, receiveMessage]
  | cons hd rest ih =>
      obtain ⟨k, v⟩ := hd
      intro h
      have hk : ¬k = toID := by
        intro hkk
        simp [countFor, List.filter_cons, hkk] at h
      have hrest : countFor rest toID = 0 := by
        simpa [countFor, List.filter_cons, hk] using h
      rw [multimapInsert]
      by_cases hlt : toID < k
      · rw [if_pos hlt, receiveMessage, if_pos rfl]
      · rw [if_neg hlt, receiveMessage, if_neg (fun hkk => hk hkk),
          ih hrest]

/-- C6: message delivery is exactly-once and draining is idempotent.
(a) Delivering a message to a recipient with no pending messages and then
receiving for that recipient returns exactly the delivered message, and a
second receive returns empty (the mailbox is exactly as before the
delivery).  (b) After a full receive loop for a recipient, an immediately
following receive loop for the same recipient returns no messages and leaves
the mailbox unchanged. -/
theorem messenger_exactly_once_and_drain_idempotent :
    (∀ (mb : Mailbox) (A B : EntityID) (t : MessageType) (d : MessageData),
        countFor mb B = 0 →
        (receiveMessage (deliverMessage mb A B t d) B =
            some ({ msgFrom := A, type := t, data := d }, mb) ∧
          receiveMessage mb B = none)) ∧
    (∀ (mb : Mailbox) (R : EntityID),
        drain (drain mb R).2 R = ([], (drain mb R).2)) := by
  constructor
  · intro mb A B t d h
    exact ⟨receive_insert_of_empty B _ mb h, (receiveMessage_none_iff B mb).mpr h⟩
  · intro mb R
    exact drain_of_empty _ R (drain_empties mb R)

/-- An example message used in concrete witnesses. -/
def hitMessage : Message :=
  { msgFrom := 2, type := .Hit, data := .missileHitData 2 }

/-- Witness for `messenger_exactly_once_and_drain_idempotent` on Scenario C:
a mailbox holding one message for entity 5 and none for entity 3 satisfies
the hypothesis, and delivering a Hit from 2 to 3 then receiving for 3 yields
exactly that message once, with the second receive empty. -/
theorem messenger_exactly_once_witness :
    countFor [(5, hitMessage)] 3 = 0 ∧
    (receiveMessage (deliverMessage [(5, hitMessage)] 2 3 .Hit
        (.missileHitData 2)) 3 =
      some ({ msgFrom := 2, type := .Hit, data := .missileHitData 2 },
        [(5, hitMessage)]) ∧
      receiveMessage [(5, hitMessage)] 3 = none) :=
  ⟨by decide,
    messenger_exactly_once_and_drain_idempotent.1 [(5, hitMessage)] 2 3 .Hit
      (.missileHitData 2) (by decide)⟩

/-! ## Boat state machine (src/Scene/Boat.h / Boat.cpp)

The boat's FSM states.  Boat.cpp also uses a `MoveToAssist` state (Help
handler and update switch); it is missing from the enum in the snapshot's
Boat.h (the header predates the source) and is included here as used. -/
inductive BState
  | Inactive | Patrol | Aim | Evade | Reloading | Destroyed
  | TargetPoint | PickupCrate | Wiggle | MoveToAssist
deriving DecidableEq

/-- Team affiliation (Boat.h lines 56-61). -/
inductive Team
  | TeamA | TeamB | TeamC
deriving DecidableEq

/-- Shared per-type boat statistics (Boat.h lines 96-102). -/
structure BoatTemplate where
  mMaxSpeed : ℚ
  mAcceleration : ℚ
  mTurnSpeed : ℚ
  mGunTurnSpeed : ℚ
  mMaxHP : ℚ
  mMissileDamage : ℚ
  mTeam : Team
deriving DecidableEq

/-- The mutable per-boat state touched by message handling
(Boat.h lines 252-278). -/
structure Boat where
  mState : BState
  mHP : ℚ
  mSpeed : ℚ
  mTimer : ℚ
  mMissilesRemaining : Int
  mReloading : Bool
  mWigglePhase : ℚ
  mLastWiggleAngle : ℚ
  mPatrolPoint : Vec3
  mTargetPoint : Vec3
  mTargetRange : ℚ
  mTargetCrate : Option EntityID
  mShieldEntityID : EntityID
  mShieldTimer : ℚ
  mTargetBoat : EntityID
  moveToEnemyBoat : Option EntityID
deriving DecidableEq

/-- The Boat constructor (Boat.h lines 120-136): full HP from the template,
initial speed clamped to the template's max, Inactive, 10 missiles. -/
def mkBoat (tmpl : BoatTemplate) (initSpeed : ℚ) : Boat :=
  { mState := .Inactive
    mHP := tmpl.mMaxHP
    mSpeed := if initSpeed > tmpl.mMaxSpeed then tmpl.mMaxSpeed else initSpeed
    mTimer := 0
    mMissilesRemaining := 10
    mReloading := false
    mWigglePhase := 0
    mLastWiggleAngle := 0
    mPatrolPoint := ⟨0, 0, 0⟩
    mTargetPoint := ⟨0, 0, 0⟩
    mTargetRange := 5
    mTargetCrate := none
    mShieldEntityID := NO_ID
    mShieldTimer := 0
    mTargetBoat := NO_ID
    moveToEnemyBoat := none }

/-- `float GetHP() { return mHP; }` (Boat.h line 144). -/
def GetHP (b : Boat) : ℚ := b.mHP

/-- One incoming message as the boat's handler sees it, with the
environment lookups and random rolls it consumes resolved into the event:
`hit` carries the attacker's missile damage when the attacker is still alive
(`none` means unknown attacker, default damage 20) and the 50% help-roll;
`help` carries whether the reported enemy still exists; a Shield
`crateCollected` carries the ID `CreateEntity` will return for the new
shield and the `Random(7,15)` roll. -/
inductive GameMsg
  | start (patrolPoint : Vec3)
  | evade
  | stop
  | hit (attackerDamage : Option ℚ) (helpRoll : ℚ)
  | mineHit
  | help (enemyBoatID : EntityID) (enemyFound : Bool)
  | reload
  | crateCollected (kind : CrateType) (newShieldID : EntityID) (durationRoll : ℚ)
  | targetPoint (target : Vec3) (range : ℚ)
  | shieldDestroyed
  | die
  | pause
  | unpause
  | targetEntity
  | targetNone
deriving DecidableEq

/-- The message `switch` of `Boat::Update` (Boat.cpp lines 38-179), acting
on the boat's own state.  The 50% help broadcast of the Hit handler only
sends messages to teammates and does not change this boat's own fields. -/
def processMessage (b : Boat) : GameMsg → Boat
  | .start patrolPoint =>
      if b.mState = .Inactive then
        { b with mState := .Patrol, mPatrolPoint := patrolPoint }
      else b
  | .evade =>
      if b.mState ≠ .Inactive ∧ b.mState ≠ .Destroyed then
        { b with mState := .Evade }
      else b
  | .stop => { b with mState := .Inactive, mSpeed := 0 }
  | .hit attackerDamage _ =>
      if b.mShieldEntityID = NO_ID then
        let damage := match attackerDamage with
          | some d => d
          | none => 20
        let b1 : Boat := { b with mHP := b.mHP - damage }
        if b1.mHP ≤ 0 then { b1 with mState := .Destroyed } else b1
      else b
  | .mineHit =>
      let b1 : Boat := if b.mShieldEntityID = NO_ID
        then { b with mHP := b.mHP - 50 }
        else { b with mHP := b.mHP - 25 }
      if b1.mHP ≤ 0 then { b1 with mState := .Destroyed }
      else { b1 with mTimer := 2, mWigglePhase := 0, mLastWiggleAngle := 0,
                     mState := .Wiggle }
  | .help enemyBoatID enemyFound =>
      if b.mState ≠ .Aim ∧ b.mState ≠ .Destroyed then
        let b1 := { b with moveToEnemyBoat :=
          if enemyFound then some enemyBoatID else none }
        if enemyFound then { b1 with mState := .MoveToAssist, mTimer := 2 }
        else b1
      else b
  | .reload => { b with mState := .Reloading }
  | .crateCollected kind newShieldID durationRoll =>
      let b1 :=
        match kind with
        | .Missile => { b with mMissilesRemaining := b.mMissilesRemaining + 2 }
        | .Health => { b with mHP := GetHP b + 20 }
        | .Shield => { b with mShieldEntityID := newShieldID,
                              mShieldTimer := durationRoll }
      { b1 with mTargetCrate := none }
  | .targetPoint target range =>
      { b with mTargetPoint := target, mTargetRange := range,
               mState := .TargetPoint }
  | .shieldDestroyed => { b with mShieldEntityID := NO_ID }
  | .die => { b with mState := .Destroyed }
  | .pause => b
  | .unpause => b
  | .targetEntity => b
  | .targetNone => b

/-- Process a sequence of messages (the drain loop of `Boat::Update`). -/
def processMessages (b : Boat) (msgs : List GameMsg) : Boat :=
  msgs.foldl processMessage b

/-- Is the message a Hit or MineHit event? -/
def isHitOrMine : GameMsg → Bool
  | .hit _ _ => true
  | .mineHit => true
  | _ => false


theorem processMessage_hp_nonpos_destroyed (b : Boat) (m : GameMsg)
    (hm : isHitOrMine m = true)
    (hinv : b.mHP ≤ 0 → b.mState = .Destroyed) :
    (processMessage b m).mHP ≤ 0 → (processMessage b m).mState = .Destroyed := by
  cases m with
  | hit attackerDamage helpRoll =>
      simp only [processMessage]
      by_cases hs : b.mShieldEntityID = NO_ID
      · rw [if_pos hs]
        split
        · intro _; rfl
        · next hgt => intro hcon; exact absurd hcon hgt
      · rw [if_neg hs]; exact hinv
  | mineHit =>
      simp only [processMessage]
      split <;> split
      · intro _; rfl
      · next hgt => intro hcon; exact absurd hcon hgt
      · intro _; rfl
      · next hgt => intro hcon; exact absurd hcon hgt
  | start p => simp [isHitOrMine] at hm
  | evade => simp [isHitOrMine] at hm
  | stop => simp [isHitOrMine] at hm
  | help a c => simp [isHitOrMine] at hm
  | reload => simp [isHitOrMine] at hm
  | crateCollected a c d => simp [isHitOrMine] at hm
  | targetPoint a c => simp [isHitOrMine] at hm
  | shieldDestroyed => simp [isHitOrMine] at hm
  | die => simp [isHitOrMine] at hm
  | pause => simp [isHitOrMine] at hm
  | unpause => simp [isHitOrMine] at hm
  | targetEntity => simp [isHitOrMine] at hm
  | targetNone => simp [isHitOrMine] at hm

/-- C3 (amended): over every sequence of Hit / MineHit events, the HP left
by the fatal hit can be strictly negative and is observable via `GetHP`
unchanged, but non-positive HP always implies the boat's state is Destroyed.
(The code subtracts damage without clamping; only the `mHP <= 0` check is
performed.) -/
theorem boat_hp_nonpos_implies_destroyed (b : Boat) (msgs : List GameMsg)
    (hmsgs : ∀ m ∈ msgs, isHitOrMine m = true)
    (hinv : b.mHP ≤ 0 → b.mState = .Destroyed) :
    GetHP (processMessages b msgs) ≤ 0 →
      (processMessages b msgs).mState = .Destroyed := by
  induction msgs generalizing b with
  | nil => exact hinv
  | cons m rest ih =>
      rw [processMessages, List.foldl_cons]
      exact ih (processMessage b m)
        (fun x hx => hmsgs x (List.mem_cons_of_mem m hx))
        (processMessage_hp_nonpos_destroyed b m (hmsgs m (List.mem_cons_self m rest)) hinv)

/-! ### C3 counterexample: four Hits then a MineHit leave HP at -30 -/

/-- Template of Scenario A style boats: max HP 100, missile damage 20. -/
def c3Template : BoatTemplate :=
  { mMaxSpeed := 30, mAcceleration := 5, mTurnSpeed := 1, mGunTurnSpeed := 1,
    mMaxHP := 100, mMissileDamage := 20, mTeam := .TeamA }

/-- Four hits by an unknown attacker (default damage 20) then a mine hit. -/
def c3Msgs : List GameMsg :=
  [.hit none 1, .hit none 1, .hit none 1, .hit none 1, .mineHit]

/-- C3 counterexample: the claim says HP observable via GetHP is always
≥ 0.  A fresh 100-HP boat processing four unknown-attacker Hits (HP 20) and
then a MineHit (HP -= 50, no clamp) observably reports `GetHP = -30 < 0`. -/
theorem boat_hp_observable_negative :
    GetHP (processMessages (mkBoat c3Template 0) c3Msgs) = -30 ∧
    GetHP (processMessages (mkBoat c3Template 0) c3Msgs) < 0 ∧
    (processMessages (mkBoat c3Template 0) c3Msgs).mState = .Destroyed := by
  norm_num [processMessages, c3Msgs, processMessage, mkBoat, c3Template, GetHP,
    NO_ID]

/-- Witness for `boat_hp_nonpos_implies_destroyed` at the concrete boat and
message sequence above. -/
theorem boat_hp_nonpos_implies_destroyed_witness :
    (∀ m ∈ c3Msgs, isHitOrMine m = true) ∧
    ((mkBoat c3Template 0).mHP ≤ 0 → (mkBoat c3Template 0).mState = .Destroyed) ∧
    (GetHP (processMessages (mkBoat c3Template 0) c3Msgs) ≤ 0 →
      (processMessages (mkBoat c3Template 0) c3Msgs).mState = .Destroyed) :=
  ⟨by decide, by decide,
    boat_hp_nonpos_implies_destroyed (mkBoat c3Template 0) c3Msgs
      (by decide) (by decide)⟩

/-- C4 (amended): a boat in the Destroyed state ignores Start, Evade, Help,
Hit, CrateCollected, ShieldDestroyed and the no-payload messages, and Die
keeps it Destroyed — but Stop moves it to Inactive, Reload to Reloading,
TargetPoint to TargetPoint, and MineHit to Wiggle whenever the HP left by
the mine damage is still positive: these handlers have no Destroyed guard. -/
theorem destroyed_state_message_effects (b : Boat) (m : GameMsg)
    (h : b.mState = .Destroyed) :
    (processMessage b m).mState =
      (match m with
        | .stop => BState.Inactive
        | .reload => BState.Reloading
        | .targetPoint _ _ => BState.TargetPoint
        | .mineHit =>
            if (if b.mShieldEntityID = NO_ID then b.mHP - 50 else b.mHP - 25) ≤ 0
            then BState.Destroyed else BState.Wiggle
        | _ => BState.Destroyed) := by
  cases m with
  | start p => simp [processMessage, h]
  | evade => simp [processMessage, h]
  | stop => simp [processMessage]
  | hit attackerDamage helpRoll =>
      simp only [processMessage]
      by_cases hs : b.mShieldEntityID = NO_ID
      · rw [if_pos hs]
        split
        · rfl
        · exact h
      · rw [if_neg hs]; exact h
  | mineHit =>
      simp only [processMessage]
      by_cases hs : b.mShieldEntityID = NO_ID
      · rw [if_pos hs]
        split
        · next hc => simp [hs, show b.mHP - 50 ≤ 0 from hc]
        · next hc => simp [hs, show ¬(b.mHP - 50 ≤ 0) from hc]
      · rw [if_neg hs]
        split
        · next hc => simp [hs, show b.mHP - 25 ≤ 0 from hc]
        · next hc => simp [hs, show ¬(b.mHP - 25 ≤ 0) from hc]
  | help a c =>
      simp only [processMessage]
      rw [if_neg (by simp [h])]
      exact h
  | reload => simp [processMessage]
  | crateCollected a c d =>
      cases a <;> simp [processMessage, h]
  | targetPoint a c => simp [processMessage]
  | shieldDestroyed => simp [processMessage, h]
  | die => simp [processMessage]
  | pause => simp [processMessage, h]
  | unpause => simp [processMessage, h]
  | targetEntity => simp [processMessage, h]
  | targetNone => simp [processMessage, h]

/-- A boat already destroyed (sunk to 0 HP). -/
def c4Boat : Boat :=
  { mkBoat c3Template 0 with mState := .Destroyed, mHP := 0 }

/-- C4 counterexample: the claim says every message processed while
Destroyed leaves the state Destroyed; processing Stop moves the boat to
Inactive (the Stop handler has no state guard). -/
theorem destroyed_boat_accepts_stop :
    c4Boat.mState = .Destroyed ∧
    (processMessage c4Boat .stop).mState = .Inactive ∧
    (processMessage c4Boat .stop).mState ≠ .Destroyed := by
  decide

/-- Witness for `destroyed_state_message_effects`: the destroyed boat
processing Stop ends Inactive, as the theorem's match table states. -/
theorem destroyed_state_message_effects_witness :
    c4Boat.mState = .Destroyed ∧
    (processMessage c4Boat GameMsg.stop).mState = BState.Inactive :=
  ⟨by decide, destroyed_state_message_effects c4Boat .stop (by decide)⟩

/-! ## Shield entities
(src/Scene/Shield.h, src/Scene/Shield.cpp, src/Scene/Boat.cpp lines 142-154
and 940-948)

`Shield.h` declares the constructor
`Shield(template, id, transform, float duration = 7.0f, name = "")`.
`Boat::AttachShieldMesh` calls
`CreateEntity<Shield>("Shield", shieldTransform, GetID())`, so the extra
`GetID()` argument binds the float `duration` parameter: the new shield's
duration is the owning boat's entity ID.  `Shield::Update` (Shield.cpp)
tracks the owner through a field `mParentBoatID` and decrements a field
`mShieldDuration`; both declarations are missing from the snapshot's
Shield.h (the header predates the source), so the shield record carries the
parent ID alongside the duration, written `mDuration` as in the header. -/

structure Shield where
  id : EntityID
  mParentBoatID : EntityID
  mDuration : ℚ
deriving DecidableEq

/-- `float GetDuration() const { return mDuration; }` (Shield.h line 26). -/
def GetDuration (s : Shield) : ℚ := s.mDuration

/-- The registry as seen by the shield lifecycle: the live shield entities
and the allocation counter. -/
structure ShieldRegistry where
  shields : List Shield
  mNextID : EntityID
deriving DecidableEq

/-- The shield entities attached to the given boat. -/
def ownedShields (r : ShieldRegistry) (boatID : EntityID) : List Shield :=
  r.shields.filter (fun s => s.mParentBoatID = boatID)

/-- `DestroyEntity` restricted to the shield view. -/
def destroyShieldEntity (r : ShieldRegistry) (id : EntityID) : ShieldRegistry :=
  { r with shields := r.shields.filter (fun s => s.id ≠ id) }

/-- Boat.cpp lines 144-149: "If there is already a shield, remove it
first" — destroy the old shield entity and clear the boat's field. -/
def removeOldShield (b : Boat) (r : ShieldRegistry) : Boat × ShieldRegistry :=
  if b.mShieldEntityID ≠ NO_ID then
    ({ b with mShieldEntityID := NO_ID }, destroyShieldEntity r b.mShieldEntityID)
  else (b, r)

/-- `Boat::AttachShieldMesh` (Boat.cpp lines 940-948): create the new shield
entity with this boat's ID as the extra constructor argument (which the
declared constructor receives as its `duration`) and store the returned ID
in the boat's shield field. -/
def attachShieldMesh (b : Boat) (boatID : EntityID) (r : ShieldRegistry) :
    Boat × ShieldRegistry :=
  let newID := r.mNextID
  ({ b with mShieldEntityID := newID },
    { shields := r.shields ++
        [{ id := newID, mParentBoatID := boatID, mDuration := (boatID : ℚ) }]
      mNextID := r.mNextID + 1 })

/-- The CrateCollected{Shield} handler (Boat.cpp lines 142-154) including
its registry effects: destroy the old shield, attach the new one, then set
the boat's shield timer to the `Random(7,15)` roll. -/
def collectShieldCrate (b : Boat) (boatID : EntityID) (r : ShieldRegistry)
    (durationRoll : ℚ) : Boat × ShieldRegistry :=
  let br1 := removeOldShield b r
  let br2 := attachShieldMesh br1.1 boatID br1.2
  ({ br2.1 with mShieldTimer := durationRoll }, br2.2)

/-- `Shield::Update` (Shield.cpp lines 6-43), with visual effects omitted:
destroy the shield if the parent boat is gone or destroyed; otherwise tick
the duration down and self-destruct (emitting ShieldDestroyed to the owner)
once it reaches zero. -/
def shieldUpdate (s : Shield) (parentState : Option BState) (frameTime : ℚ) :
    Option Shield :=
  match parentState with
  | none => none
  | some ps =>
      if ps = .Destroyed then none
      else
        let d2 := s.mDuration - frameTime
        if d2 ≤ 0 then none
        else some { s with mDuration := d2 }

/-- The boat's shield field as the set of shield IDs it names. -/
def shieldField (b : Boat) : List EntityID :=
  if b.mShieldEntityID = NO_ID then [] else [b.mShieldEntityID]

theorem ownedShields_destroy (r : ShieldRegistry) (i : EntityID)
    (bid : EntityID) :
    ownedShields (destroyShieldEntity r i) bid =
      (ownedShields r bid).filter (fun s => s.id ≠ i) := by
  simp only [ownedShields, destroyShieldEntity, List.filter_filter]
  exact List.filter_congr (fun s _ => by rw [Bool.and_comm])

theorem map_id_eq_singleton (l : List Shield) (x : EntityID)
    (h : l.map Shield.id = [x]) : ∃ s, l = [s] ∧ s.id = x := by
  cases l with
  | nil => simp at h
  | cons s t =>
      cases t with
      | nil =>
          refine ⟨s, rfl, ?_⟩
          simpa using h
      | cons s2 t2 => simp at h

/-- C5: at most one shield entity is attached to a boat at any time.  If the
boat's shield field names exactly its attached shields (none, or the single
shield it records), then processing CrateCollected{Shield} first leaves the
boat with zero attached shields (the old shield entity is destroyed before
the new one is created) and ends with exactly one, whose ID the field names
again — so the per-boat shield count never exceeds one at any point of the
handler. -/
theorem shield_at_most_one (b : Boat) (r : ShieldRegistry) (boatID : EntityID)
    (dur : ℚ) (hnz : r.mNextID ≠ NO_ID)
    (htrack : (ownedShields r boatID).map Shield.id = shieldField b) :
    (ownedShields (removeOldShield b r).2 boatID).length = 0 ∧
    (ownedShields (collectShieldCrate b boatID r dur).2 boatID).length = 1 ∧
    (ownedShields (collectShieldCrate b boatID r dur).2 boatID).map Shield.id =
      shieldField (collectShieldCrate b boatID r dur).1 := by
  have hrm : ownedShields (removeOldShield b r).2 boatID = [] := by
    rw [removeOldShield]
    by_cases hb : b.mShieldEntityID ≠ NO_ID
    · rw [if_pos hb]
      simp only
      rw [ownedShields_destroy]
      rw [shieldField, if_neg (by simpa using hb)] at htrack
      obtain ⟨s, hl, hid⟩ := map_id_eq_singleton _ _ htrack
      rw [hl]
      simp [hid]
    · rw [if_neg hb]
      simp only
      rw [shieldField, if_pos (by simpa using hb)] at htrack
      exact List.map_eq_nil_iff.mp htrack
  have hnext : (removeOldShield b r).2.mNextID = r.mNextID := by
    rw [removeOldShield]
    by_cases hb : b.mShieldEntityID ≠ NO_ID
    · rw [if_pos hb]; rfl
    · rw [if_neg hb]
  refine ⟨by rw [hrm]; rfl, ?_, ?_⟩ <;>
    · rw [collectShieldCrate]
      simp only [attachShieldMesh, ownedShields, List.filter_append, shieldField]
      rw [show (removeOldShield b r).2.shields.filter
            (fun s => s.mParentBoatID = boatID) = [] from hrm]
      simp [hnext, hnz]

/-- Boat that already has a shield (entity 5). -/
def c5Boat : Boat := { mkBoat c3Template 0 with mShieldEntityID := 5 }

/-- Registry holding boat 2's current shield entity 5. -/
def c5Reg : ShieldRegistry :=
  { shields := [{ id := 5, mParentBoatID := 2, mDuration := 5 }], mNextID := 6 }

/-- Witness for `shield_at_most_one` on Scenario E: a boat with an attached
shield collecting another Shield crate has zero shields after the removal
step and exactly one at the end. -/
theorem shield_at_most_one_witness :
    c5Reg.mNextID ≠ NO_ID ∧
    (ownedShields c5Reg 2).map Shield.id = shieldField c5Boat ∧
    ((ownedShields (removeOldShield c5Boat c5Reg).2 2).length = 0 ∧
      (ownedShields (collectShieldCrate c5Boat 2 c5Reg 10).2 2).length = 1 ∧
      (ownedShields (collectShieldCrate c5Boat 2 c5Reg 10).2 2).map Shield.id =
        shieldField (collectShieldCrate c5Boat 2 c5Reg 10).1) :=
  ⟨by decide, by decide, shield_at_most_one c5Boat c5Reg 2 10 (by decide) (by decide)⟩

/-- An empty shield registry whose next ID is 30. -/
def c9Reg : ShieldRegistry := { shields := [], mNextID := 30 }

/-- C9: the replacement shield's duration is NOT the random 7-15 s roll.
`AttachShieldMesh` passes the boat's ID as the extra constructor argument,
which the declared Shield constructor receives as its `duration`, so for a
boat with entity ID 2 the created shield has duration 2 s (outside 7-15),
while the `Random(7,15)` roll lands in the boat's `mShieldTimer`, a field no
other code reads.  The shield does self-destruct when its own duration
elapses: one 3-second tick kills the 2-second shield, long before any
7-15 s duration could have elapsed. -/
theorem shield_duration_is_boat_id :
    (collectShieldCrate (mkBoat c3Template 0) 2 c9Reg 10).2.shields.map
        GetDuration = [(2 : ℚ)] ∧
    ¬((7 : ℚ) ≤ 2) ∧
    (collectShieldCrate (mkBoat c3Template 0) 2 c9Reg 10).1.mShieldTimer = 10 ∧
    ((7 : ℚ) ≤ 10 ∧ (10 : ℚ) ≤ 15) ∧
    shieldUpdate { id := 30, mParentBoatID := 2, mDuration := 2 }
        (some .Patrol) 3 = none := by
  refine ⟨?_, by norm_num, ?_, by norm_num, ?_⟩ <;>
    norm_num [collectShieldCrate, removeOldShield, attachShieldMesh, mkBoat,
      c3Template, c9Reg, GetDuration, shieldUpdate, NO_ID, destroyShieldEntity]

/-! ## Collision avoidance
(src/Scene/Boat.cpp `HandleCollisionAvoidance`, lines 607-697, with the
vector operations of src/Math/Vector3.cpp)

All quantities are exact rationals.  Vector lengths (`Length()`, a square
root) are supplied as explicit arguments constrained by `IsLengthOf`
(nonnegative and squaring to the squared length), exactly the value the
float code computes; every guard of the source compares such a length or a
squared length against a constant, so the control flow is preserved. -/

def vzero : Vec3 := ⟨0, 0, 0⟩

def vadd (a b : Vec3) : Vec3 := ⟨a.x + b.x, a.y + b.y, a.z + b.z⟩

def smul (q : ℚ) (v : Vec3) : Vec3 := ⟨q * v.x, q * v.y, q * v.z⟩

def vneg (v : Vec3) : Vec3 := ⟨-v.x, -v.y, -v.z⟩

/-- Componentwise division by a scalar (`Vector3::operator/`). -/
def vdiv (v : Vec3) (q : ℚ) : Vec3 := ⟨v.x / q, v.y / q, v.z / q⟩

/-- `Dot` (Vector3.cpp line 116). -/
def dot (a b : Vec3) : ℚ := a.x * b.x + a.y * b.y + a.z * b.z

/-- The squared length `x*x + y*y + z*z` (Vector3.cpp lines 106, 130). -/
def lengthSq (v : Vec3) : ℚ := v.x * v.x + v.y * v.y + v.z * v.z

/-- `d` is the length of `v`: nonnegative and squaring to `lengthSq v`. -/
def IsLengthOf (d : ℚ) (v : Vec3) : Prop := 0 ≤ d ∧ d * d = lengthSq v

/-- `OffsetNorm` (Vector3.cpp lines 151-158): returns zero when the distance
is below the 1e-4 threshold, otherwise divides by it. -/
def OffsetNorm (offset : Vec3) (dist : ℚ) : Vec3 :=
  if dist < 1 / 10000 then vzero else vdiv offset dist

/-- `Normalise` (Vector3.cpp lines 128-145): guarded by
`IsZero(lengthSq)` (|x| < EPSILON32 = 0.5e-6, MathHelpers.cpp line 13);
otherwise scales by `InvSqrt(lengthSq) = 1/len`, where `len` is the length
of `v` supplied by the caller. -/
def NormaliseWith (v : Vec3) (len : ℚ) : Vec3 :=
  if |lengthSq v| < 1 / 2000000 then vzero else smul (1 / len) v

/-- One boat's term of the avoidance loop (Boat.cpp lines 635-659): skip
(`continue`) below the 1e-4 epsilon, repel within the 40-unit safe distance,
scaled by `1 - dist/kSafeBoatDistance`. -/
def boatAvoidContribution (offset : Vec3) (dist : ℚ) : Vec3 :=
  if dist < 1 / 10000 then vzero
  else if dist < 40 then smul (1 - dist / 40) (vneg (OffsetNorm offset dist))
  else vzero

/-- The immediate-threat test of the same loop (Boat.cpp lines 641-649):
within 120 units and in front of the boat (dot against the cosine of the
threat angle); the division `offset / dist` sits behind the same epsilon
skip.  `cosThreatAngle` stands for `cos(ToRadians(50))`. -/
def boatThreat (myForward offset : Vec3) (dist cosThreatAngle : ℚ) : Bool :=
  if dist < 1 / 10000 then false
  else if dist < 120 then
    decide (dot myForward (vdiv offset dist) > cosThreatAngle)
  else false

/-- One obstacle's term of the avoidance loop (Boat.cpp lines 661-674):
skip (`continue`) beyond the 50-unit radius, otherwise repel along
`Normalise(offset)` scaled by `1 - dist/kSafeObstacleDistance`.  There is no
explicit epsilon skip here; `Normalise` itself returns zero for a
zero-length offset. -/
def obstacleAvoidContribution (offset : Vec3) (dist : ℚ) : Vec3 :=
  if dist > 50 then vzero
  else smul (1 - dist / 50) (NormaliseWith offset dist)

/-- The accumulated avoidance direction over the observed boats and
obstacles, each given as an offset together with its length. -/
def accumulateAvoidance (agents obstacles : List (Vec3 × ℚ)) : Vec3 :=
  let fromBoats := agents.foldl
    (fun acc p => vadd acc (boatAvoidContribution p.1 p.2)) vzero
  obstacles.foldl
    (fun acc p => vadd acc (obstacleAvoidContribution p.1 p.2)) fromBoats

/-- The final avoidance application (Boat.cpp lines 677-679): when the
accumulated direction's length exceeds 1e-4, normalize it and scale by
`kAvoidStrength = 2.5`; otherwise no avoidance is applied (zero vector). -/
def scaledAvoidance (acc : Vec3) (len : ℚ) : Vec3 :=
  if len > 1 / 10000 then smul (5 / 2) (vdiv acc len) else vzero

theorem lengthSq_nonneg (v : Vec3) : 0 ≤ lengthSq v := by
  have hx := mul_self_nonneg v.x
  have hy := mul_self_nonneg v.y
  have hz := mul_self_nonneg v.z
  rw [lengthSq]
  linarith

theorem smul_vzero (q : ℚ) : smul q vzero = vzero := by
  simp [smul, vzero]

/-- C8: the collision-avoidance computation never divides by a below-epsilon
distance, and the applied avoidance vector is zero or exactly normalized
(length `kAvoidStrength = 5/2`, squared length 25/4).  (a) An agent closer
than the 1e-4 epsilon is skipped: it contributes nothing and its threat test
is false, and the divisions by `dist` occur only in the non-skipped
branches.  (b) An obstacle whose distance is below an epsilon (1/2000 — its
square is then below the Normalise guard EPSILON32) contributes nothing:
`Normalise` returns the zero vector instead of dividing.  (c) The applied
avoidance vector is the zero vector or has squared length exactly
(5/2)^2. -/
theorem avoidance_guarded_and_normalized :
    (∀ (offset myForward : Vec3) (dist c : ℚ), dist < 1 / 10000 →
        boatAvoidContribution offset dist = vzero ∧
        boatThreat myForward offset dist c = false) ∧
    (∀ (offset : Vec3) (dist : ℚ), IsLengthOf dist offset → dist < 1 / 2000 →
        obstacleAvoidContribution offset dist = vzero) ∧
    (∀ (acc : Vec3) (len : ℚ), IsLengthOf len acc →
        scaledAvoidance acc len = vzero ∨
          lengthSq (scaledAvoidance acc len) = 25 / 4) := by
  refine ⟨?_, ?_, ?_⟩
  · intro offset myForward dist c h
    exact ⟨by rw [boatAvoidContribution, if_pos h],
      by rw [boatThreat, if_pos h]⟩
  · intro offset dist hlen hsmall
    obtain ⟨hnn, hsq⟩ := hlen
    have hguard : |lengthSq offset| < 1 / 2000000 := by
      rw [abs_of_nonneg (lengthSq_nonneg offset), ← hsq]
      nlinarith
    rw [obstacleAvoidContribution]
    rw [if_neg (by nlinarith)]
    rw [NormaliseWith, if_pos hguard, smul_vzero]
  · intro acc len hlen
    obtain ⟨hnn, hsq⟩ := hlen
    by_cases hgt : len > 1 / 10000
    · right
      have hne : len ≠ 0 := by positivity
      rw [scaledAvoidance, if_pos hgt]
      rw [lengthSq] at hsq
      simp only [lengthSq, smul, vdiv]
      field_simp
      nlinarith [hsq]
    · left
      rw [scaledAvoidance, if_neg hgt]

/-- Witness for `avoidance_guarded_and_normalized`: a zero-distance agent is
skipped, a zero-length obstacle offset contributes nothing, and the
accumulated direction (3,0,4) of length 5 is scaled to squared length
25/4. -/
theorem avoidance_guarded_and_normalized_witness :
    ((0 : ℚ) < 1 / 10000 ∧
      (boatAvoidContribution vzero 0 = vzero ∧
        boatThreat vzero vzero 0 0 = false)) ∧
    (IsLengthOf 0 vzero ∧ (0 : ℚ) < 1 / 2000 ∧
      obstacleAvoidContribution vzero 0 = vzero) ∧
    (IsLengthOf 5 ⟨3, 0, 4⟩ ∧
      (scaledAvoidance ⟨3, 0, 4⟩ 5 = vzero ∨
        lengthSq (scaledAvoidance ⟨3, 0, 4⟩ 5) = 25 / 4)) :=
  ⟨⟨by norm_num,
      avoidance_guarded_and_normalized.1 vzero vzero 0 0 (by norm_num)⟩,
    ⟨by norm_num [IsLengthOf, lengthSq, vzero], by norm_num,
      avoidance_guarded_and_normalized.2.1 vzero 0
        (by norm_num [IsLengthOf, lengthSq, vzero]) (by norm_num)⟩,
    ⟨by norm_num [IsLengthOf, lengthSq],
      avoidance_guarded_and_normalized.2.2 ⟨3, 0, 4⟩ 5
        (by norm_num [IsLengthOf, lengthSq])⟩⟩
